import Mathlib

/-!
Shallow embedding of the payment-router core (health tracker, smart router,
processor behavior model, simulation metrics) of the repository under
verification.  JavaScript numbers are modelled as rationals (`ℚ`),
`Math.round` as `jsRound` (round half toward positive infinity, which is
JavaScript's behaviour), `Math.floor` on naturals as `Nat` division, maps as
functions into `Option`, and `Math.random()` draws as explicit rational
parameters in `[0, 1)`.  Fallible code (`throw`) is modelled with `Except`.
-/

/-- JavaScript `Math.round`: rounds half toward positive infinity. -/
def jsRound (q : ℚ) : ℤ := ⌊q + 1 / 2⌋

/-- `src/types.ts`: `EventType = 'success' | 'declined' | 'error' | 'timeout'`. -/
inductive EventType where
  | success
  | declined
  | error
  | timeout
deriving DecidableEq, Inhabited

/-- `src/types.ts`: `ProcessorStatus = 'healthy' | 'degraded' | 'down'`. -/
inductive ProcessorStatus where
  | healthy
  | degraded
  | down
deriving DecidableEq, Inhabited

/-- `src/types.ts`: `WindowEvent { timestamp, type, latencyMs }`. -/
structure WindowEvent where
  timestamp : ℤ
  type : EventType
  latencyMs : ℚ
deriving DecidableEq, Inhabited

/-- `src/types.ts`: `ProcessorHealth` snapshot.  `avgLatencyMs` and `score`
are integers in the code (both pass through `Math.round`). -/
structure ProcessorHealth where
  processorId : String
  successRate : ℚ
  declineRate : ℚ
  errorRate : ℚ
  timeoutRate : ℚ
  avgLatencyMs : ℤ
  totalRequests : ℕ
  status : ProcessorStatus
  score : ℤ
  lastUpdated : ℤ
deriving DecidableEq

/-- `src/types.ts`: `ThresholdConfig`. -/
structure ThresholdConfig where
  windowSizeMs : ℤ
  degradedThreshold : ℚ
  downThreshold : ℚ
  recentSampleSize : ℕ
  minSamples : ℕ
deriving DecidableEq

/-- `src/healthTracker.ts` lines 9–15: `DEFAULT_CONFIG`. -/
def DEFAULT_CONFIG : ThresholdConfig :=
  { windowSizeMs := 15000
    degradedThreshold := 92 / 100
    downThreshold := 75 / 100
    recentSampleSize := 8
    minSamples := 6 }

/-- `src/healthTracker.ts`: `countByType(events, type)` =
`events.filter((e) => e.type === type).length`. -/
def countByType (events : List WindowEvent) (t : EventType) : ℕ :=
  (events.filter (fun e => decide (e.type = t))).length

/-- `src/healthTracker.ts`: `computeSuccessRate` (1 on an empty list). -/
def computeSuccessRate (events : List WindowEvent) : ℚ :=
  if events.length = 0 then 1
  else (countByType events EventType.success : ℚ) / (events.length : ℚ)

/-- `src/healthTracker.ts` lines 153–157: `computeTechnicalAvailability`:
fraction of events that are neither errors nor timeouts (1 on empty). -/
def computeTechnicalAvailability (events : List WindowEvent) : ℚ :=
  if events.length = 0 then 1
  else 1 - ((countByType events EventType.error + countByType events EventType.timeout : ℕ) : ℚ)
        / (events.length : ℚ)

/-- `src/healthTracker.ts`: `computeAvgLatency` (0 on an empty list). -/
def computeAvgLatency (events : List WindowEvent) : ℚ :=
  if events.length = 0 then 0
  else (events.map (fun e => e.latencyMs)).sum / (events.length : ℚ)

/-- `src/healthTracker.ts` lines 164–169: `computeScore`:
`round(min(100, availability*70 + max(0, 30*(1 - avgLatency/3000))))`. -/
def computeScore (technicalAvailability avgLatencyMs : ℚ) : ℤ :=
  jsRound (min 100 (technicalAvailability * 70 + max 0 (30 * (1 - avgLatencyMs / 3000))))

/-- `src/healthTracker.ts` lines 121–125: `computeStatus` from effective
availability and the config's two thresholds. -/
def computeStatus (cfg : ThresholdConfig) (technicalAvailability : ℚ) : ProcessorStatus :=
  if cfg.degradedThreshold ≤ technicalAvailability then ProcessorStatus.healthy
  else if cfg.downThreshold ≤ technicalAvailability then ProcessorStatus.degraded
  else ProcessorStatus.down

/-- JavaScript `events.slice(-n)`: the last `n` elements for `n > 0`;
`slice(-0)` is `slice(0)`, the whole array. -/
def jsSliceNeg (n : ℕ) (l : List WindowEvent) : List WindowEvent :=
  if n = 0 then l else l.drop (l.length - n)

/-- `src/healthTracker.ts` lines 72–76: the fast-detection sample's technical
availability, `null` (here `none`) when fewer than
`Math.floor(recentSampleSize / 2)` recent events exist. -/
def recentTAOpt (cfg : ThresholdConfig) (events : List WindowEvent) : Option ℚ :=
  if cfg.recentSampleSize / 2 ≤ (jsSliceNeg cfg.recentSampleSize events).length then
    some (computeTechnicalAvailability (jsSliceNeg cfg.recentSampleSize events))
  else none

/-- `src/healthTracker.ts` lines 79–82: effective availability = the minimum
of the full-window availability `fullTA` and the recent sample's availability
when the latter was computed. -/
def effectiveAvailabilityFrom (cfg : ThresholdConfig) (events : List WindowEvent)
    (fullTA : ℚ) : ℚ :=
  match recentTAOpt cfg events with
  | some r => min fullTA r
  | none => fullTA

/-- `src/healthTracker.ts` lines 127–140: `emptyHealth`: the neutral baseline
snapshot for an empty (or unknown) window. -/
def emptyHealth (processorId : String) (now : ℤ) : ProcessorHealth :=
  { processorId := processorId
    successRate := 1
    declineRate := 0
    errorRate := 0
    timeoutRate := 0
    avgLatencyMs := 0
    totalRequests := 0
    status := ProcessorStatus.healthy
    score := 100
    lastUpdated := now }

/-- `src/healthTracker.ts` lines 35–99: the body of `getHealth` after the
initial prune, as a function of the pruned window.  In the code the local
`technicalAvailability` is `1 - errorRate - timeoutRate`; that expression
appears verbatim below. -/
def getHealthFromEvents (cfg : ThresholdConfig) (processorId : String)
    (events : List WindowEvent) (now : ℤ) : ProcessorHealth :=
  if events.length = 0 then emptyHealth processorId now
  else if events.length < cfg.minSamples then
    { processorId := processorId
      successRate := computeSuccessRate events
      declineRate := (countByType events EventType.declined : ℚ) / (events.length : ℚ)
      errorRate := (countByType events EventType.error : ℚ) / (events.length : ℚ)
      timeoutRate := (countByType events EventType.timeout : ℚ) / (events.length : ℚ)
      avgLatencyMs := jsRound (computeAvgLatency events)
      totalRequests := events.length
      status := ProcessorStatus.healthy
      score := computeScore
        (1 - (countByType events EventType.error : ℚ) / (events.length : ℚ)
           - (countByType events EventType.timeout : ℚ) / (events.length : ℚ))
        (computeAvgLatency events)
      lastUpdated := now }
  else
    { processorId := processorId
      successRate := computeSuccessRate events
      declineRate := (countByType events EventType.declined : ℚ) / (events.length : ℚ)
      errorRate := (countByType events EventType.error : ℚ) / (events.length : ℚ)
      timeoutRate := (countByType events EventType.timeout : ℚ) / (events.length : ℚ)
      avgLatencyMs := jsRound (computeAvgLatency events)
      totalRequests := events.length
      status := computeStatus cfg (effectiveAvailabilityFrom cfg events
        (1 - (countByType events EventType.error : ℚ) / (events.length : ℚ)
           - (countByType events EventType.timeout : ℚ) / (events.length : ℚ)))
      score := computeScore (effectiveAvailabilityFrom cfg events
        (1 - (countByType events EventType.error : ℚ) / (events.length : ℚ)
           - (countByType events EventType.timeout : ℚ) / (events.length : ℚ)))
        (computeAvgLatency events)
      lastUpdated := now }

/-- The `HealthTracker`'s mutable state: the per-processor windows map and the
threshold config. -/
structure TrackerState where
  windows : String → Option (List WindowEvent)
  config : ThresholdConfig

/-- `src/healthTracker.ts` lines 114–119: `pruneWindow`'s filter — keep events
with `timestamp >= now - windowSizeMs`. -/
def pruneEvents (cfg : ThresholdConfig) (now : ℤ) (events : List WindowEvent) :
    List WindowEvent :=
  events.filter (fun e => decide (now - cfg.windowSizeMs ≤ e.timestamp))

/-- `src/healthTracker.ts` lines 28–33: `recordEvent` — a no-op when the id
has no window; otherwise append the event and prune. -/
def recordEvent (ts : TrackerState) (now : ℤ) (processorId : String)
    (t : EventType) (latencyMs : ℚ) : TrackerState :=
  match ts.windows processorId with
  | none => ts
  | some events =>
    { ts with windows := fun id =>
        if id = processorId then
          some (pruneEvents ts.config now
            (events ++ [{ timestamp := now, type := t, latencyMs := latencyMs }]))
        else ts.windows id }

/-- `src/healthTracker.ts` lines 35–99: `getHealth` — prune, then compute the
snapshot from the (possibly missing, hence `?? []`) pruned window. -/
def getHealth (ts : TrackerState) (now : ℤ) (processorId : String) : ProcessorHealth :=
  getHealthFromEvents ts.config processorId
    (pruneEvents ts.config now ((ts.windows processorId).getD [])) now

/-- `src/types.ts`: `ProcessorConfig` (fee in basis points, nominal latency). -/
structure ProcessorConfig where
  id : String
  name : String
  costPerTransaction : ℚ
  baseLatencyMs : ℚ
deriving DecidableEq

/-- `src/processors.ts` lines 3–7: the processor registry. -/
def PROCESSOR_CONFIGS : List ProcessorConfig :=
  [ { id := "veloce", name := "Veloce Pay", costPerTransaction := 30, baseLatencyMs := 120 }
  , { id := "stripe", name := "Stripe", costPerTransaction := 29, baseLatencyMs := 180 }
  , { id := "braintree", name := "Braintree", costPerTransaction := 25, baseLatencyMs := 240 } ]

/-- `src/processors.ts` line 11: `MAX_COST = Math.max(...costs)`.  The fold
seeds with 0; every registered cost is positive, so the value is the same as
JavaScript's spread-`Math.max` over the nonempty list (namely 30). -/
def MAX_COST : ℚ :=
  (PROCESSOR_CONFIGS.map (fun p => p.costPerTransaction)).foldl max 0

/-- `src/smartRouter.ts` lines 10–13: `applyCostBonus` — base score plus
`Math.round((MAX_COST - cost) / MAX_COST * 5)`. -/
def applyCostBonus (baseScore : ℤ) (config : ProcessorConfig) : ℤ :=
  baseScore + jsRound ((MAX_COST - config.costPerTransaction) / MAX_COST * 5)

instance : Inhabited ProcessorHealth := ⟨emptyHealth "" 0⟩

/-- `src/smartRouter.ts` lines 43–49: the filter body of `filterCandidates`:
excluded when force-disabled, included when force-enabled, otherwise included
iff the status is not `down`. -/
def candidatePred (overrides : String → Option Bool) (h : ProcessorHealth) : Bool :=
  match overrides h.processorId with
  | some false => false
  | some true => true
  | none => decide (h.status ≠ ProcessorStatus.down)

/-- `src/smartRouter.ts` lines 42–49: `filterCandidates`. -/
def filterCandidates (overrides : String → Option Bool)
    (healthList : List ProcessorHealth) : List ProcessorHealth :=
  healthList.filter (candidatePred overrides)

/-- `src/smartRouter.ts` lines 57–60: per-candidate weights — cost-adjusted
score when the registry knows the id, the raw score otherwise. -/
def selectionWeights (candidates : List ProcessorHealth) : List ℤ :=
  candidates.map (fun h =>
    match PROCESSOR_CONFIGS.find? (fun c => c.id == h.processorId) with
    | some config => applyCostBonus h.score config
    | none => h.score)

/-- `src/smartRouter.ts` lines 69–73: the cursor walk — subtract each weight,
return the candidate at which the cursor goes non-positive, `none` when it
never does (the code then falls back to the last candidate). -/
def walkCandidates : ℚ → List ProcessorHealth → List ℤ → Option String
  | _, [], _ => none
  | _, _ :: _, [] => none
  | cursor, c :: cs, w :: ws =>
    if cursor - (w : ℚ) ≤ 0 then some c.processorId
    else walkCandidates (cursor - (w : ℚ)) cs ws

/-- `src/smartRouter.ts` lines 56–75: `weightedRandomSelect`.  `rUniform` and
`rCursor` are the two `Math.random()` draws in `[0, 1)`. -/
def weightedRandomSelect (rUniform rCursor : ℚ)
    (candidates : List ProcessorHealth) : String :=
  let weights := selectionWeights candidates
  let totalWeight : ℤ := weights.foldl (fun sum w => sum + w) 0
  if totalWeight = 0 then
    (candidates.getD (⌊rUniform * (candidates.length : ℚ)⌋.toNat) default).processorId
  else
    match walkCandidates (rCursor * (totalWeight : ℚ)) candidates weights with
    | some processorId => processorId
    | none => (candidates.getLast?.getD default).processorId

/-- `src/smartRouter.ts` lines 29–37: `selectProcessor` over the router's
override map, its registered ids and the tracker's state. -/
def selectProcessor (overrides : String → Option Bool) (processorIds : List String)
    (ts : TrackerState) (now : ℤ) (rUniform rCursor : ℚ) : Option String :=
  let candidates := filterCandidates overrides (processorIds.map (getHealth ts now))
  if candidates.length = 0 then none
  else if candidates.length = 1 then some ((candidates.getD 0 default).processorId)
  else some (weightedRandomSelect rUniform rCursor candidates)

/-- `src/processors.ts` lines 13–18: `ProcessorState` — the mutable failure
profile (no `declineRate` field in this file's model). -/
structure ProcessorState where
  errorRate : ℚ
  timeoutRate : ℚ
  latencyMultiplier : ℚ
  degraded : Bool
deriving DecidableEq

/-- `src/processors.ts` lines 21–25: the initial `processorStates` map
(healthy baseline for all three processors). -/
def initialProcessorStates : String → Option ProcessorState := fun id =>
  if id = "veloce" then
    some { degraded := false, errorRate := 7 / 1000, timeoutRate := 3 / 1000, latencyMultiplier := 1 }
  else if id = "stripe" then
    some { degraded := false, errorRate := 7 / 1000, timeoutRate := 3 / 1000, latencyMultiplier := 1 }
  else if id = "braintree" then
    some { degraded := false, errorRate := 7 / 1000, timeoutRate := 3 / 1000, latencyMultiplier := 1 }
  else none

/-- `src/processors.ts` lines 51–54: `TransactionResult`. -/
structure TransactionResult where
  status : EventType
  latencyMs : ℤ
deriving DecidableEq

/-- `src/processors.ts` lines 56–96: `processTransaction`.  Throws (modelled
as `Except.error`) for an id missing from the registry or the state map;
otherwise draws jitter (`jitterRand`) and one outcome value (`rand`) and
buckets the latter against the cumulative thresholds `timeoutRate`, then
`timeoutRate + errorRate`, everything else falling through to `success`.
The awaited `sleep`s only delay; they do not affect the returned value. -/
def processTransaction (states : String → Option ProcessorState)
    (processorId : String) (amount : ℚ) (jitterRand rand : ℚ) :
    Except String TransactionResult :=
  match PROCESSOR_CONFIGS.find? (fun p => p.id == processorId), states processorId with
  | some config, some state =>
    let baseLatency := config.baseLatencyMs * state.latencyMultiplier
    let jitter := jitterRand * baseLatency * (2 / 5)
    let latencyMs := jsRound (baseLatency + jitter)
    if rand < state.timeoutRate then
      Except.ok { status := EventType.timeout, latencyMs := 3000 }
    else if rand < state.timeoutRate + state.errorRate then
      Except.ok { status := EventType.error, latencyMs := latencyMs }
    else
      Except.ok { status := EventType.success, latencyMs := latencyMs }
  | _, _ => Except.error ("Unknown processor: " ++ processorId)

/-- `src/types.ts`: `Transaction` record. -/
structure Transaction where
  id : String
  processorId : String
  amount : ℚ
  status : EventType
  latencyMs : ℤ
  timestamp : ℤ
  feeBps : ℚ
  costSavedBps : ℚ
deriving DecidableEq

/-- `src/simulation.ts` line 14: `MAX_STORED_TRANSACTIONS = 500`. -/
def MAX_STORED_TRANSACTIONS : ℕ := 500

/-- `src/simulation.ts` line 15: `TPS_WINDOW_MS = 5_000`. -/
def TPS_WINDOW_MS : ℤ := 5000

/-- `src/simulation.ts` lines 68–70: `getRecentTransactions` =
`recentTransactions.slice(0, 100)`.  The buffer is most-recent-first. -/
def getRecentTransactions (recentTransactions : List Transaction) : List Transaction :=
  recentTransactions.take 100

/-- `src/simulation.ts` lines 177–182: `storeTransaction` — `unshift`, then
`pop` when the buffer exceeds `MAX_STORED_TRANSACTIONS`. -/
def storeTransaction (recentTransactions : List Transaction) (tx : Transaction) :
    List Transaction :=
  if MAX_STORED_TRANSACTIONS < (tx :: recentTransactions).length then
    (tx :: recentTransactions).dropLast
  else tx :: recentTransactions

/-- `src/types.ts`: `Metrics`. -/
structure Metrics where
  totalTransactions : ℕ
  successfulTransactions : ℕ
  declinedTransactions : ℕ
  failedTransactions : ℕ
  authRate : ℚ
  totalCostSavedUsd : ℚ
  avgLatencyMs : ℤ
  transactionsPerSecond : ℚ
deriving DecidableEq

/-- `src/simulation.ts` lines 228–239: `emptyMetrics`. -/
def emptyMetrics : Metrics :=
  { totalTransactions := 0
    successfulTransactions := 0
    declinedTransactions := 0
    failedTransactions := 0
    authRate := 0
    totalCostSavedUsd := 0
    avgLatencyMs := 0
    transactionsPerSecond := 0 }

/-- The simulation fields `updateMetrics` reads and writes: the metrics plus
the rolling TPS window counter and its start time. -/
structure SimMetricsState where
  metrics : Metrics
  tpsWindowStart : ℤ
  tpsWindowCount : ℕ
deriving DecidableEq

/-- `src/simulation.ts` lines 184–226: `updateMetrics` — increment
`totalTransactions`, route the outcome into exactly one of the three outcome
counters (`error` and `timeout` both count as failed), recompute `authRate`,
accumulate cost savings, blend the latency EMA (α = 0.1, first sample seeds),
and roll the 5-second TPS window. -/
def updateMetrics (st : SimMetricsState) (status : EventType) (latencyMs : ℤ)
    (costSavedUsd : ℚ) (now : ℤ) : SimMetricsState :=
  let m := st.metrics
  let totalTransactions := m.totalTransactions + 1
  let counters : ℕ × ℕ × ℕ :=
    if status = EventType.success then
      (m.successfulTransactions + 1, m.declinedTransactions, m.failedTransactions)
    else if status = EventType.declined then
      (m.successfulTransactions, m.declinedTransactions + 1, m.failedTransactions)
    else
      (m.successfulTransactions, m.declinedTransactions, m.failedTransactions + 1)
  let authRate : ℚ :=
    if 0 < totalTransactions then (counters.1 : ℚ) / (totalTransactions : ℚ) else 0
  let totalCostSavedUsd := m.totalCostSavedUsd + costSavedUsd
  let avgLatencyMs : ℤ :=
    if totalTransactions = 1 then latencyMs
    else jsRound ((m.avgLatencyMs : ℚ) * (1 - 1 / 10) + (latencyMs : ℚ) * (1 / 10))
  let tpsWindowCount := st.tpsWindowCount + 1
  if TPS_WINDOW_MS ≤ now - st.tpsWindowStart then
    { metrics :=
        { totalTransactions := totalTransactions
          successfulTransactions := counters.1
          declinedTransactions := counters.2.1
          failedTransactions := counters.2.2
          authRate := authRate
          totalCostSavedUsd := totalCostSavedUsd
          avgLatencyMs := avgLatencyMs
          transactionsPerSecond :=
            (jsRound ((tpsWindowCount : ℚ) / (TPS_WINDOW_MS : ℚ) * 1000 * 10) : ℚ) / 10 }
      tpsWindowStart := now
      tpsWindowCount := 0 }
  else
    { metrics :=
        { totalTransactions := totalTransactions
          successfulTransactions := counters.1
          declinedTransactions := counters.2.1
          failedTransactions := counters.2.2
          authRate := authRate
          totalCostSavedUsd := totalCostSavedUsd
          avgLatencyMs := avgLatencyMs
          transactionsPerSecond := m.transactionsPerSecond }
      tpsWindowStart := st.tpsWindowStart
      tpsWindowCount := tpsWindowCount }

/-- Fold a sequence of completed transactions (status, latency, cost saved,
completion time) through `updateMetrics`. -/
def runUpdates (st : SimMetricsState) (txs : List (EventType × ℤ × ℚ × ℤ)) :
    SimMetricsState :=
  txs.foldl (fun s tx => updateMetrics s tx.1 tx.2.1 tx.2.2.1 tx.2.2.2) st

/-- The partition invariant of the aggregate metrics. -/
def metricsInvariant (m : Metrics) : Prop :=
  m.totalTransactions =
    m.successfulTransactions + m.declinedTransactions + m.failedTransactions

/-! ### Helper lemmas about the health computations -/

lemma countByType_nil (t : EventType) : countByType [] t = 0 := rfl

lemma countByType_cons (e : WindowEvent) (l : List WindowEvent) (t : EventType) :
    countByType (e :: l) t =
      (if e.type = t then 1 else 0) + countByType l t := by
  unfold countByType
  by_cases h : e.type = t
  · simp [h, List.filter_cons, Nat.add_comm]
  · simp [h, List.filter_cons]

/-- Every event has exactly one of the four outcome kinds, so the four counts
partition the window. -/
lemma countByType_partition (l : List WindowEvent) :
    countByType l EventType.success + countByType l EventType.declined +
      countByType l EventType.error + countByType l EventType.timeout = l.length := by
  induction l with
  | nil => rfl
  | cons e l ih =>
    rw [List.length_cons, countByType_cons, countByType_cons, countByType_cons,
      countByType_cons]
    cases h : e.type <;> simp [h] <;> omega

lemma countByType_eq_zero (l : List WindowEvent) (t : EventType) :
    countByType l t = 0 ↔ ∀ e ∈ l, e.type ≠ t := by
  unfold countByType
  rw [List.length_eq_zero, List.filter_eq_nil_iff]
  simp

lemma countByType_le_length (l : List WindowEvent) (t : EventType) :
    countByType l t ≤ l.length :=
  List.length_filter_le _ l

lemma computeTechnicalAvailability_le_one (l : List WindowEvent) :
    computeTechnicalAvailability l ≤ 1 := by
  unfold computeTechnicalAvailability
  split_ifs with h
  · exact le_refl 1
  · have h1 : (0 : ℚ) ≤ ((countByType l EventType.error + countByType l EventType.timeout : ℕ) : ℚ) / (l.length : ℚ) := by
      positivity
    linarith

lemma computeTechnicalAvailability_eq_one (l : List WindowEvent)
    (he : countByType l EventType.error = 0) (ht : countByType l EventType.timeout = 0) :
    computeTechnicalAvailability l = 1 := by
  unfold computeTechnicalAvailability
  split_ifs with h
  · rfl
  · rw [he, ht]
    norm_num

/-- The local `technicalAvailability = 1 - errorRate - timeoutRate` of
`getHealth` equals `computeTechnicalAvailability` on a nonempty window. -/
lemma ta_expr_eq (events : List WindowEvent) (h : events.length ≠ 0) :
    1 - (countByType events EventType.error : ℚ) / (events.length : ℚ)
      - (countByType events EventType.timeout : ℚ) / (events.length : ℚ) =
      computeTechnicalAvailability events := by
  unfold computeTechnicalAvailability
  rw [if_neg h]
  push_cast
  rw [add_div]
  ring

lemma jsSliceNeg_subset (n : ℕ) (l : List WindowEvent) :
    ∀ e ∈ jsSliceNeg n l, e ∈ l := by
  intro e he
  unfold jsSliceNeg at he
  split_ifs at he with h
  · exact he
  · exact List.drop_subset _ _ he

lemma getHealthFromEvents_processorId (cfg : ThresholdConfig) (pid : String)
    (events : List WindowEvent) (now : ℤ) :
    (getHealthFromEvents cfg pid events now).processorId = pid := by
  unfold getHealthFromEvents emptyHealth
  split_ifs <;> rfl

lemma getHealth_processorId (ts : TrackerState) (now : ℤ) (pid : String) :
    (getHealth ts now pid).processorId = pid :=
  getHealthFromEvents_processorId _ _ _ _

/-- Spec-side definition (for the refinement claim about effective
availability): "take the most recent `recentSampleSize` events; if at least
`floor(recentSampleSize / 2)` events exist, the effective availability is the
minimum of the full-window and recent-sample technical availability;
otherwise it is the full-window availability". -/
def specEffectiveAvailability (cfg : ThresholdConfig) (events : List WindowEvent) : ℚ :=
  if cfg.recentSampleSize / 2 ≤ events.length then
    min (computeTechnicalAvailability events)
      (computeTechnicalAvailability (events.drop (events.length - cfg.recentSampleSize)))
  else computeTechnicalAvailability events

/-- The code's effective availability agrees with the spec's description. -/
lemma effectiveAvailability_eq_spec (cfg : ThresholdConfig) (events : List WindowEvent) :
    effectiveAvailabilityFrom cfg events (computeTechnicalAvailability events) =
      specEffectiveAvailability cfg events := by
  have hta1 : computeTechnicalAvailability ([] : List WindowEvent) = 1 := rfl
  rcases Nat.eq_zero_or_pos cfg.recentSampleSize with h0 | hpos
  · have hslice : jsSliceNeg cfg.recentSampleSize events = events := by
      unfold jsSliceNeg
      rw [if_pos h0]
    have hcond : cfg.recentSampleSize / 2 ≤ (jsSliceNeg cfg.recentSampleSize events).length := by
      rw [hslice]
      omega
    have hopt : recentTAOpt cfg events = some (computeTechnicalAvailability events) := by
      unfold recentTAOpt
      rw [if_pos hcond, hslice]
    have hdrop : events.drop (events.length - cfg.recentSampleSize) = [] := by
      rw [h0, Nat.sub_zero, List.drop_length]
    have hspec : specEffectiveAvailability cfg events = computeTechnicalAvailability events := by
      unfold specEffectiveAvailability
      rw [if_pos (by omega : cfg.recentSampleSize / 2 ≤ events.length), hdrop, hta1,
        min_eq_left (computeTechnicalAvailability_le_one events)]
    unfold effectiveAvailabilityFrom
    rw [hopt, hspec]
    exact min_self _
  · have hne0 : cfg.recentSampleSize ≠ 0 := hpos.ne'
    have hslice : jsSliceNeg cfg.recentSampleSize events =
        events.drop (events.length - cfg.recentSampleSize) := by
      unfold jsSliceNeg
      rw [if_neg hne0]
    have hlen : (jsSliceNeg cfg.recentSampleSize events).length =
        events.length - (events.length - cfg.recentSampleSize) := by
      rw [hslice, List.length_drop]
    have hd2 := Nat.div_le_self cfg.recentSampleSize 2
    by_cases hc : cfg.recentSampleSize / 2 ≤ events.length
    · have hcond : cfg.recentSampleSize / 2 ≤ (jsSliceNeg cfg.recentSampleSize events).length := by
        omega
      have hopt : recentTAOpt cfg events =
          some (computeTechnicalAvailability (events.drop (events.length - cfg.recentSampleSize))) := by
        unfold recentTAOpt
        rw [if_pos hcond, hslice]
      unfold effectiveAvailabilityFrom specEffectiveAvailability
      rw [hopt, if_pos hc]
    · have hcond : ¬ cfg.recentSampleSize / 2 ≤ (jsSliceNeg cfg.recentSampleSize events).length := by
        omega
      have hopt : recentTAOpt cfg events = none := by
        unfold recentTAOpt
        rw [if_neg hcond]
      unfold effectiveAvailabilityFrom specEffectiveAvailability
      rw [hopt, if_neg hc]

/-- Claim C3: for every effective availability `a` and average latency `L`,
the health score equals `round(min(100, 70*a + max(0, 30*(1 - L/3000))))`,
and the latency component is 0 whenever `L ≥ 3000` ms. -/
theorem computeScore_matches_spec_formula (a L : ℚ) :
    computeScore a L = jsRound (min 100 (70 * a + max 0 (30 * (1 - L / 3000)))) ∧
      (3000 ≤ L → computeScore a L = jsRound (min 100 (70 * a))) := by
  constructor
  · unfold computeScore
    rw [mul_comm a 70]
  · intro hL
    unfold computeScore
    have h30 : (0 : ℚ) < 3000 := by norm_num
    have h1 : (1 : ℚ) ≤ L / 3000 := (le_div_iff₀ h30).mpr (by linarith)
    have hmax : max 0 (30 * (1 - L / 3000)) = 0 := max_eq_left (by nlinarith)
    rw [hmax, add_zero, mul_comm a 70]

/-- The four rate fields of a snapshot computed from a nonempty window sum
to 1. -/
lemma ratesSum (cfg : ThresholdConfig) (pid : String) (events : List WindowEvent)
    (now : ℤ) (h : 0 < (getHealthFromEvents cfg pid events now).totalRequests) :
    (getHealthFromEvents cfg pid events now).successRate +
      (getHealthFromEvents cfg pid events now).declineRate +
      (getHealthFromEvents cfg pid events now).errorRate +
      (getHealthFromEvents cfg pid events now).timeoutRate = 1 := by
  have hne : events.length ≠ 0 := by
    intro h0
    rw [getHealthFromEvents, if_pos h0] at h
    exact absurd h (by simp [emptyHealth])
  have hq : (events.length : ℚ) ≠ 0 := Nat.cast_ne_zero.mpr hne
  have hsum : (countByType events EventType.success : ℚ) / (events.length : ℚ) +
      (countByType events EventType.declined : ℚ) / (events.length : ℚ) +
      (countByType events EventType.error : ℚ) / (events.length : ℚ) +
      (countByType events EventType.timeout : ℚ) / (events.length : ℚ) = 1 := by
    rw [div_add_div_same, div_add_div_same, div_add_div_same]
    rw [show (countByType events EventType.success : ℚ) +
        (countByType events EventType.declined : ℚ) +
        (countByType events EventType.error : ℚ) +
        (countByType events EventType.timeout : ℚ) = ((countByType events EventType.success +
        countByType events EventType.declined + countByType events EventType.error +
        countByType events EventType.timeout : ℕ) : ℚ) by push_cast; ring]
    rw [countByType_partition events]
    exact div_self hq
  have hsucc : computeSuccessRate events =
      (countByType events EventType.success : ℚ) / (events.length : ℚ) := by
    unfold computeSuccessRate
    rw [if_neg hne]
  unfold getHealthFromEvents
  rw [if_neg hne]
  split_ifs <;> simp only <;> rw [hsucc] <;> exact hsum

/-- Claim C7: for every snapshot returned by `getHealth` with
`totalRequests > 0`, the four outcome rates sum to exactly 1. -/
theorem getHealth_rates_sum_to_one (ts : TrackerState) (now : ℤ) (pid : String)
    (h : 0 < (getHealth ts now pid).totalRequests) :
    (getHealth ts now pid).successRate + (getHealth ts now pid).declineRate +
      (getHealth ts now pid).errorRate + (getHealth ts now pid).timeoutRate = 1 :=
  ratesSum ts.config pid (pruneEvents ts.config now ((ts.windows pid).getD [])) now h

/-- Claim C10: `getRecentTransactions` always returns at most 100 records and
is the most-recent-first prefix of the internal buffer, while
`storeTransaction` keeps the buffer itself bounded by
`MAX_STORED_TRANSACTIONS` (500). -/
theorem getRecentTransactions_at_most_100 :
    (∀ buf : List Transaction,
      (getRecentTransactions buf).length ≤ 100 ∧
        List.IsPrefix (getRecentTransactions buf) buf) ∧
    (∀ (buf : List Transaction) (tx : Transaction),
      buf.length ≤ MAX_STORED_TRANSACTIONS →
        (storeTransaction buf tx).length ≤ MAX_STORED_TRANSACTIONS) := by
  constructor
  · intro buf
    constructor
    · unfold getRecentTransactions
      rw [List.length_take]
      exact min_le_left _ _
    · exact List.take_prefix _ _
  · intro buf tx h
    unfold storeTransaction MAX_STORED_TRANSACTIONS
    unfold MAX_STORED_TRANSACTIONS at h
    split_ifs with hlen
    · rw [List.length_dropLast, List.length_cons]
      omega
    · rw [List.length_cons] at hlen ⊢
      omega

/-- Claim C2: once the window holds at least `minSamples` events, the score
and status reported by `getHealth` are computed from the effective
availability the spec describes: the minimum of the full-window technical
availability and that of the most recent `recentSampleSize` events, the
latter entering whenever at least `floor(recentSampleSize / 2)` events exist;
otherwise the full-window availability is used alone. -/
theorem getHealth_uses_min_effective_availability (cfg : ThresholdConfig)
    (pid : String) (events : List WindowEvent) (now : ℤ)
    (hmin : cfg.minSamples ≤ events.length) (hpos : 0 < events.length) :
    (getHealthFromEvents cfg pid events now).score =
      computeScore (specEffectiveAvailability cfg events) (computeAvgLatency events) ∧
    (getHealthFromEvents cfg pid events now).status =
      computeStatus cfg (specEffectiveAvailability cfg events) := by
  have hne : ¬ events.length = 0 := by omega
  have hnm : ¬ events.length < cfg.minSamples := by omega
  have hta := ta_expr_eq events (by omega)
  unfold getHealthFromEvents
  rw [if_neg hne, if_neg hnm]
  simp only
  rw [hta, effectiveAvailability_eq_spec]
  exact ⟨rfl, rfl⟩

/-- A tiny concrete tracker state used by the closed witnesses below. -/
def demoEvents : List WindowEvent :=
  [ { timestamp := 0, type := EventType.success, latencyMs := 100 }
  , { timestamp := 0, type := EventType.declined, latencyMs := 100 }
  , { timestamp := 0, type := EventType.success, latencyMs := 100 }
  , { timestamp := 0, type := EventType.error, latencyMs := 100 }
  , { timestamp := 0, type := EventType.success, latencyMs := 100 }
  , { timestamp := 0, type := EventType.timeout, latencyMs := 100 } ]

def demoTracker : TrackerState :=
  { windows := fun id => if id = "p1" then some demoEvents else none
    config := DEFAULT_CONFIG }

theorem getHealth_min_effective_availability_witness :
    (getHealthFromEvents DEFAULT_CONFIG "p1" demoEvents 0).score =
      computeScore (specEffectiveAvailability DEFAULT_CONFIG demoEvents)
        (computeAvgLatency demoEvents) ∧
    (getHealthFromEvents DEFAULT_CONFIG "p1" demoEvents 0).status =
      computeStatus DEFAULT_CONFIG (specEffectiveAvailability DEFAULT_CONFIG demoEvents) :=
  getHealth_uses_min_effective_availability DEFAULT_CONFIG "p1" demoEvents 0
    (by decide) (by decide)

theorem getHealth_rates_sum_witness :
    (getHealth demoTracker 0 "p1").successRate + (getHealth demoTracker 0 "p1").declineRate +
      (getHealth demoTracker 0 "p1").errorRate + (getHealth demoTracker 0 "p1").timeoutRate = 1 :=
  getHealth_rates_sum_to_one demoTracker 0 "p1" (by decide)

/-! ### The smart router: claim C1 -/

lemma candidatePred_eq_false_iff (overrides : String → Option Bool) (h : ProcessorHealth) :
    candidatePred overrides h = false ↔
      overrides h.processorId = some false ∨
        (overrides h.processorId = none ∧ h.status = ProcessorStatus.down) := by
  unfold candidatePred
  rcases hov : overrides h.processorId with _ | b
  · simp [hov]
  · cases b <;> simp [hov]

lemma candidatePred_getHealth (overrides : String → Option Bool) (ts : TrackerState)
    (now : ℤ) (id : String) :
    candidatePred overrides (getHealth ts now id) = false ↔
      overrides id = some false ∨
        (overrides id = none ∧ (getHealth ts now id).status = ProcessorStatus.down) := by
  rw [candidatePred_eq_false_iff, getHealth_processorId]

lemma filterCandidates_eq_nil_iff (overrides : String → Option Bool)
    (processorIds : List String) (ts : TrackerState) (now : ℤ) :
    filterCandidates overrides (processorIds.map (getHealth ts now)) = [] ↔
      ∀ id ∈ processorIds, overrides id = some false ∨
        (overrides id = none ∧ (getHealth ts now id).status = ProcessorStatus.down) := by
  unfold filterCandidates
  rw [List.filter_eq_nil_iff]
  constructor
  · intro h id hid
    have hp := h (getHealth ts now id) (List.mem_map_of_mem _ hid)
    have hfalse : candidatePred overrides (getHealth ts now id) = false := by
      simpa using hp
    exact (candidatePred_getHealth overrides ts now id).mp hfalse
  · intro h x hx
    rcases List.mem_map.mp hx with ⟨id, hid, rfl⟩
    have hfalse := (candidatePred_getHealth overrides ts now id).mpr (h id hid)
    simp [hfalse]

/-- Claim C1: `selectProcessor` returns `none` exactly when every registered
processor is either explicitly force-disabled, or has no override and its
computed status is `down` — i.e. when no candidate passes the filter. -/
theorem selectProcessor_none_iff_all_excluded (overrides : String → Option Bool)
    (processorIds : List String) (ts : TrackerState) (now : ℤ) (rUniform rCursor : ℚ) :
    selectProcessor overrides processorIds ts now rUniform rCursor = none ↔
      ∀ id ∈ processorIds, overrides id = some false ∨
        (overrides id = none ∧ (getHealth ts now id).status = ProcessorStatus.down) := by
  rw [← filterCandidates_eq_nil_iff overrides processorIds ts now]
  unfold selectProcessor
  simp only
  split_ifs with h1 h2
  · rw [List.length_eq_zero] at h1
    simp [h1]
  · constructor
    · intro h
      cases h
    · intro h
      rw [h] at h2
      cases h2
  · constructor
    · intro h
      cases h
    · intro h
      rw [h] at h1
      exact absurd rfl h1

/-! ### Claim C8: a 50/50 declined/success mix stays healthy -/

lemma declineRate_half (events : List WindowEvent)
    (hmix : ∀ e ∈ events, e.type = EventType.declined ∨ e.type = EventType.success)
    (hcnt : countByType events EventType.declined = countByType events EventType.success)
    (hne : events.length ≠ 0) :
    (countByType events EventType.declined : ℚ) / (events.length : ℚ) = 1 / 2 := by
  have hce : countByType events EventType.error = 0 := by
    rw [countByType_eq_zero]
    intro e he
    rcases hmix e he with h | h <;> simp [h]
  have hct : countByType events EventType.timeout = 0 := by
    rw [countByType_eq_zero]
    intro e he
    rcases hmix e he with h | h <;> simp [h]
  have hpart := countByType_partition events
  have hlen : events.length = 2 * countByType events EventType.declined := by omega
  have hd0 : countByType events EventType.declined ≠ 0 := by omega
  rw [hlen]
  push_cast
  rw [div_eq_div_iff (by positivity) (by norm_num)]
  ring

lemma noFailures_effectiveAvailability (cfg : ThresholdConfig) (events : List WindowEvent)
    (hmix : ∀ e ∈ events, e.type = EventType.declined ∨ e.type = EventType.success) :
    effectiveAvailabilityFrom cfg events 1 = 1 := by
  unfold effectiveAvailabilityFrom
  cases hopt : recentTAOpt cfg events with
  | none => rfl
  | some r =>
    have hr : r = 1 := by
      unfold recentTAOpt at hopt
      split_ifs at hopt with hc
      · cases hopt
        apply computeTechnicalAvailability_eq_one
        · rw [countByType_eq_zero]
          intro e he
          rcases hmix e (jsSliceNeg_subset _ _ e he) with h | h <;> simp [h]
        · rw [countByType_eq_zero]
          intro e he
          rcases hmix e (jsSliceNeg_subset _ _ e he) with h | h <;> simp [h]
    rw [hr]
    exact min_self 1

/-- Claim C8: when the window holds only `declined` and `success` events in
equal (nonzero) numbers, `getHealth` (with the default thresholds) reports
status `healthy` and `declineRate = 1/2`: declines do not depress technical
availability, which stays 1 ≥ `degradedThreshold`. -/
theorem decline_mix_keeps_healthy (pid : String) (now : ℤ) (events : List WindowEvent)
    (hmix : ∀ e ∈ events, e.type = EventType.declined ∨ e.type = EventType.success)
    (hcnt : countByType events EventType.declined = countByType events EventType.success)
    (hne : events ≠ []) :
    (getHealthFromEvents DEFAULT_CONFIG pid events now).status = ProcessorStatus.healthy ∧
    (getHealthFromEvents DEFAULT_CONFIG pid events now).declineRate = 1 / 2 := by
  have hlen : events.length ≠ 0 := fun h => hne (List.length_eq_zero.mp h)
  have hce : countByType events EventType.error = 0 := by
    rw [countByType_eq_zero]
    intro e he
    rcases hmix e he with h | h <;> simp [h]
  have hct : countByType events EventType.timeout = 0 := by
    rw [countByType_eq_zero]
    intro e he
    rcases hmix e he with h | h <;> simp [h]
  have hta : 1 - (countByType events EventType.error : ℚ) / (events.length : ℚ)
      - (countByType events EventType.timeout : ℚ) / (events.length : ℚ) = 1 := by
    rw [hce, hct]
    norm_num
  have hdr := declineRate_half events hmix hcnt hlen
  unfold getHealthFromEvents
  rw [if_neg hlen]
  split_ifs with hm
  · exact ⟨rfl, hdr⟩
  · constructor
    · simp only
      rw [hta, noFailures_effectiveAvailability DEFAULT_CONFIG events hmix]
      unfold computeStatus
      rw [if_pos (by norm_num [DEFAULT_CONFIG])]
    · exact hdr

theorem decline_mix_healthy_witness :
    (getHealthFromEvents DEFAULT_CONFIG "p1"
      [ { timestamp := 0, type := EventType.declined, latencyMs := 100 }
      , { timestamp := 0, type := EventType.success, latencyMs := 100 } ] 0).status =
        ProcessorStatus.healthy ∧
    (getHealthFromEvents DEFAULT_CONFIG "p1"
      [ { timestamp := 0, type := EventType.declined, latencyMs := 100 }
      , { timestamp := 0, type := EventType.success, latencyMs := 100 } ] 0).declineRate = 1 / 2 :=
  decline_mix_keeps_healthy "p1" 0
    [ { timestamp := 0, type := EventType.declined, latencyMs := 100 }
    , { timestamp := 0, type := EventType.success, latencyMs := 100 } ]
    (by decide) (by decide) (by decide)

/-! ### Claim C9: the metrics partition invariant -/

lemma updateMetrics_step (st : SimMetricsState) (status : EventType) (latencyMs : ℤ)
    (costSavedUsd : ℚ) (now : ℤ) :
    (updateMetrics st status latencyMs costSavedUsd now).metrics.totalTransactions =
      st.metrics.totalTransactions + 1 ∧
    (updateMetrics st status latencyMs costSavedUsd now).metrics.successfulTransactions +
      (updateMetrics st status latencyMs costSavedUsd now).metrics.declinedTransactions +
      (updateMetrics st status latencyMs costSavedUsd now).metrics.failedTransactions =
      st.metrics.successfulTransactions + st.metrics.declinedTransactions +
        st.metrics.failedTransactions + 1 := by
  simp only [updateMetrics]
  split_ifs <;> dsimp only <;> omega

/-- The simulation's metrics state at construction time `t0`: `emptyMetrics`
and a fresh TPS window. -/
def initialSimMetrics (t0 : ℤ) : SimMetricsState :=
  { metrics := emptyMetrics
    tpsWindowStart := t0
    tpsWindowCount := 0 }

/-- Claim C9: every `updateMetrics` call increments `totalTransactions` by one
and routes the outcome into exactly one of the three outcome counters, so
`totalTransactions == successfulTransactions + declinedTransactions +
failedTransactions` holds in every metrics state reachable from
`emptyMetrics` by a sequence of completed transactions. -/
theorem updateMetrics_partition_invariant :
    (∀ (st : SimMetricsState) (status : EventType) (latencyMs : ℤ)
        (costSavedUsd : ℚ) (now : ℤ),
      metricsInvariant st.metrics →
        metricsInvariant (updateMetrics st status latencyMs costSavedUsd now).metrics ∧
          (updateMetrics st status latencyMs costSavedUsd now).metrics.totalTransactions =
            st.metrics.totalTransactions + 1) ∧
    (∀ (t0 : ℤ) (txs : List (EventType × ℤ × ℚ × ℤ)),
      metricsInvariant (runUpdates (initialSimMetrics t0) txs).metrics) := by
  have hstep : ∀ (st : SimMetricsState) (status : EventType) (latencyMs : ℤ)
      (costSavedUsd : ℚ) (now : ℤ), metricsInvariant st.metrics →
      metricsInvariant (updateMetrics st status latencyMs costSavedUsd now).metrics := by
    intro st status latencyMs costSavedUsd now hinv
    have h := updateMetrics_step st status latencyMs costSavedUsd now
    unfold metricsInvariant at hinv ⊢
    omega
  constructor
  · intro st status latencyMs costSavedUsd now hinv
    exact ⟨hstep st status latencyMs costSavedUsd now hinv,
      (updateMetrics_step st status latencyMs costSavedUsd now).1⟩
  · intro t0 txs
    have hgen : ∀ (txs : List (EventType × ℤ × ℚ × ℤ)) (st : SimMetricsState),
        metricsInvariant st.metrics → metricsInvariant (runUpdates st txs).metrics := by
      intro txs
      induction txs with
      | nil => intro st h; exact h
      | cons tx rest ih =>
        intro st h
        rw [runUpdates, List.foldl_cons]
        exact ih _ (hstep st tx.1 tx.2.1 tx.2.2.1 tx.2.2.2 h)
    exact hgen txs _ rfl

/-! ### Claims C4/C5: processTransaction and unknown ids -/

/-- The latency `processTransaction` reports for non-timeout outcomes:
`round(base * multiplier + jitter)` with jitter up to 40% of the scaled base. -/
def scaledLatency (config : ProcessorConfig) (state : ProcessorState) (jitterRand : ℚ) : ℤ :=
  jsRound (config.baseLatencyMs * state.latencyMultiplier +
    jitterRand * (config.baseLatencyMs * state.latencyMultiplier) * (2 / 5))

/-- `processTransaction` with both lookups successful reduces to the bucketed
if-chain on the outcome draw. -/
lemma processTransaction_found (states : String → Option ProcessorState)
    (processorId : String) (config : ProcessorConfig) (state : ProcessorState)
    (amount jitterRand rand : ℚ)
    (hc : PROCESSOR_CONFIGS.find? (fun p => p.id == processorId) = some config)
    (hs : states processorId = some state) :
    processTransaction states processorId amount jitterRand rand =
      (if rand < state.timeoutRate then Except.ok ⟨EventType.timeout, 3000⟩
       else if rand < state.timeoutRate + state.errorRate then
         Except.ok ⟨EventType.error, scaledLatency config state jitterRand⟩
       else Except.ok ⟨EventType.success, scaledLatency config state jitterRand⟩) := by
  unfold processTransaction scaledLatency
  rw [hc, hs]

/-- `processTransaction` rejects when the registry lookup fails. -/
lemma processTransaction_not_found (states : String → Option ProcessorState)
    (processorId : String) (amount jitterRand rand : ℚ)
    (hc : PROCESSOR_CONFIGS.find? (fun p => p.id == processorId) = none) :
    processTransaction states processorId amount jitterRand rand =
      Except.error ("Unknown processor: " ++ processorId) := by
  unfold processTransaction
  rw [hc]

/-- Claim C4 (amended): for a processor id not in the registry, `recordEvent`
is a no-op and `getHealth` returns the neutral baseline snapshot;
`processTransaction`, by contrast, rejects with an `Unknown processor` error
(which its caller swallows). -/
theorem unknown_id_recordEvent_getHealth_tolerated (ts : TrackerState) (now : ℤ)
    (pid : String) (t : EventType) (latencyMs : ℚ)
    (states : String → Option ProcessorState) (amount jitterRand rand : ℚ)
    (hwin : ts.windows pid = none)
    (hreg : PROCESSOR_CONFIGS.find? (fun p => p.id == pid) = none) :
    recordEvent ts now pid t latencyMs = ts ∧
    getHealth ts now pid = emptyHealth pid now ∧
    processTransaction states pid amount jitterRand rand =
      Except.error ("Unknown processor: " ++ pid) := by
  refine ⟨?_, ?_, processTransaction_not_found states pid amount jitterRand rand hreg⟩
  · unfold recordEvent
    rw [hwin]
  · unfold getHealth
    rw [hwin]
    rfl

theorem unknown_id_tolerated_witness :
    recordEvent demoTracker 0 "ghost" EventType.success 100 = demoTracker ∧
    getHealth demoTracker 0 "ghost" = emptyHealth "ghost" 0 ∧
    processTransaction initialProcessorStates "ghost" 1000 0 0 =
      Except.error ("Unknown processor: " ++ "ghost") :=
  unknown_id_recordEvent_getHealth_tolerated demoTracker 0 "ghost" EventType.success 100
    initialProcessorStates 1000 0 0 rfl rfl

/-- Counterexample to claim C4 as stated: `processTransaction` does raise for
an unknown id — at the concrete id `"ghost"` it evaluates to an
`Unknown processor` error, not a successful no-op result. -/
theorem processTransaction_throws_on_unknown_id :
    processTransaction initialProcessorStates "ghost" 1000 0 0 =
      Except.error "Unknown processor: ghost" := rfl

/-- Claim C5 (amended): `processTransaction` draws one uniform value `rand`
and buckets it against the cumulative thresholds `timeoutRate`, then
`timeoutRate + errorRate`, with everything else falling through to `success`;
the failure profile has no `declineRate` and `declined` is never produced. -/
theorem processTransaction_outcome_buckets (states : String → Option ProcessorState)
    (processorId : String) (config : ProcessorConfig) (state : ProcessorState)
    (amount jitterRand rand : ℚ)
    (hc : PROCESSOR_CONFIGS.find? (fun p => p.id == processorId) = some config)
    (hs : states processorId = some state) :
    (processTransaction states processorId amount jitterRand rand).map
        (fun res => res.status) =
      Except.ok (if rand < state.timeoutRate then EventType.timeout
        else if rand < state.timeoutRate + state.errorRate then EventType.error
        else EventType.success) := by
  rw [processTransaction_found states processorId config state amount jitterRand rand hc hs]
  split_ifs <;> rfl

theorem processTransaction_outcome_buckets_witness :
    (processTransaction initialProcessorStates "veloce" 1000 0 (1 / 2)).map
        (fun res => res.status) =
      Except.ok (if (1 / 2 : ℚ) < (3 / 1000 : ℚ) then EventType.timeout
        else if (1 / 2 : ℚ) < (3 / 1000 : ℚ) + (7 / 1000 : ℚ) then EventType.error
        else EventType.success) :=
  processTransaction_outcome_buckets initialProcessorStates "veloce"
    ⟨"veloce", "Veloce Pay", 30, 120⟩
    ⟨7 / 1000, 3 / 1000, 1, false⟩
    1000 0 (1 / 2) rfl rfl

/-- Counterexample to claim C5 as stated: `declined` is not a possible
outcome of `processTransaction` for the registered processor `"veloce"` — no
outcome draw whatsoever yields it (the cumulative buckets stop at
`timeoutRate + errorRate` and fall through to `success`). -/
theorem processTransaction_never_declined :
    ¬ ∃ (amount jitterRand rand : ℚ) (res : TransactionResult),
      processTransaction initialProcessorStates "veloce" amount jitterRand rand =
        Except.ok res ∧ res.status = EventType.declined := by
  rintro ⟨amount, jitterRand, rand, res, hok, hst⟩
  rw [processTransaction_found initialProcessorStates "veloce"
    ⟨"veloce", "Veloce Pay", 30, 120⟩ ⟨7 / 1000, 3 / 1000, 1, false⟩
    amount jitterRand rand rfl rfl] at hok
  split_ifs at hok <;> cases hok <;> simp at hst

/-! ### Claim C6: the cost bonus and fee ordering -/

lemma jsRound_mono {a b : ℚ} (h : a ≤ b) : jsRound a ≤ jsRound b :=
  Int.floor_le_floor (by linarith)

lemma MAX_COST_eq : MAX_COST = 30 := by
  unfold MAX_COST PROCESSOR_CONFIGS
  norm_num

/-- Claim C6 (amended): the cost bonus is weakly monotone — holding the
health score fixed, a processor with a lower (or equal) fee receives a weight
at least as large.  Because the bonus is rounded to whole points, strictness
can be lost: two distinct fees may round to the same bonus. -/
theorem applyCostBonus_antitone_in_fee (baseScore : ℤ) (c1 c2 : ProcessorConfig)
    (h : c1.costPerTransaction ≤ c2.costPerTransaction) :
    applyCostBonus baseScore c2 ≤ applyCostBonus baseScore c1 := by
  unfold applyCostBonus
  have hpos : (0 : ℚ) < MAX_COST := by
    rw [MAX_COST_eq]
    norm_num
  have hdiv : (MAX_COST - c2.costPerTransaction) / MAX_COST * 5 ≤
      (MAX_COST - c1.costPerTransaction) / MAX_COST * 5 := by
    have h2 : (MAX_COST - c2.costPerTransaction) / MAX_COST ≤
        (MAX_COST - c1.costPerTransaction) / MAX_COST :=
      (div_le_div_iff_of_pos_right hpos).mpr (by linarith)
    linarith
  exact add_le_add_left (jsRound_mono hdiv) baseScore

theorem applyCostBonus_antitone_witness :
    applyCostBonus 90 (PROCESSOR_CONFIGS.getD 0 ⟨"", "", 0, 0⟩) ≤
      applyCostBonus 90 (PROCESSOR_CONFIGS.getD 2 ⟨"", "", 0, 0⟩) :=
  applyCostBonus_antitone_in_fee 90 (PROCESSOR_CONFIGS.getD 2 ⟨"", "", 0, 0⟩)
    (PROCESSOR_CONFIGS.getD 0 ⟨"", "", 0, 0⟩) (by norm_num [PROCESSOR_CONFIGS])

/-- Counterexample to claim C6 as stated: Stripe's fee (29 bp) is strictly
lower than Veloce's (30 bp), yet at any equal health score (here 90) both
receive exactly the same weight — `round((30-29)/30 * 5) = round(1/6) = 0` —
so the cheaper processor is not always weighted strictly higher. -/
theorem equal_weight_despite_cheaper_fee :
    (PROCESSOR_CONFIGS.getD 1 ⟨"", "", 0, 0⟩).costPerTransaction <
      (PROCESSOR_CONFIGS.getD 0 ⟨"", "", 0, 0⟩).costPerTransaction ∧
    applyCostBonus 90 (PROCESSOR_CONFIGS.getD 1 ⟨"", "", 0, 0⟩) =
      applyCostBonus 90 (PROCESSOR_CONFIGS.getD 0 ⟨"", "", 0, 0⟩) := by
  constructor
  · norm_num [PROCESSOR_CONFIGS]
  · unfold applyCostBonus jsRound
    rw [MAX_COST_eq]
    norm_num [PROCESSOR_CONFIGS]
